import Mathlib

/-
Shallow embedding of the TSE-X backend (Express/Node prototypes).

Modelling conventions, used throughout:
- JS BigInt values are Nat; JS Number values taking part in arithmetic are
  Rat (exact rationals; the binary64 rounding of JS numbers is the identity
  on every value appearing in these claims, all far below 2^53);
- a JSON field that may be absent is an Option, and the truthiness tests of
  the source (if (!x) ...) are modelled by the jsTruthy helpers;
- an awaited RPC call is a parameter of the function that performs it: an
  Except.error outcome models a rejected promise (the catch branch of the
  source), Except.ok the resolved value;
- jwt.sign and jwt.verify are modelled as an unforgeable pairing of payload
  and signing key: verify succeeds exactly on tokens signed with the same
  secret whose exp claim lies in the future;
- string algorithms of the source (toLowerCase, split, slice, startsWith,
  parseInt/parseFloat/BigInt conversions) are implemented below on the
  character lists of Lean strings.
-/

/-- JS truthiness of a possibly absent string field: undefined and the empty
string are falsy. -/
def jsTruthyStr : Option String → Bool
| none => false
| some s => !s.data.isEmpty

/-- Hex digit recognition for the parseInt and BigInt models. -/
def isHexDigitChar (c : Char) : Bool :=
c.isDigit || ('a' ≤ c && c ≤ 'f') || ('A' ≤ c && c ≤ 'F')

/-- Value of one hex digit. -/
def hexDigitVal (c : Char) : ℕ :=
if c.isDigit then c.toNat - '0'.toNat
else if 'a' ≤ c && c ≤ 'f' then c.toNat - 'a'.toNat + 10
else c.toNat - 'A'.toNat + 10

/-- Value of a hex digit string. -/
def hexListVal (l : List Char) : ℕ :=
l.foldl (fun a c => a * 16 + hexDigitVal c) 0

/-- Value of a decimal digit string. -/
def decListVal (l : List Char) : ℕ :=
l.foldl (fun a c => a * 10 + (c.toNat - '0'.toNat)) 0

/-- JS toLowerCase as used by the source on hex addresses (ASCII lowering). -/
def strLower (s : String) : String := ⟨s.data.map Char.toLower⟩

/-- JS s.startsWith("0x"). -/
def startsWith0x (s : String) : Bool :=
match s.data with
| '0' :: 'x' :: _ => true
| _ => false

/-- JS s.slice(-40): the last 40 characters (the whole string when shorter). -/
def sliceLast40 (s : String) : String := ⟨s.data.drop (s.data.length - 40)⟩

/-- JS s.substring(26): the characters from index 26 on. -/
def substringFrom26 (s : String) : String := ⟨s.data.drop 26⟩

/-- Worker for the JS split(".") model. -/
def splitDotAux : List Char → List Char → List (List Char)
| [], acc => [acc.reverse]
| c :: rest, acc =>
  if c = '.' then acc.reverse :: splitDotAux rest []
  else splitDotAux rest (c :: acc)

/-- JS s.split("."). -/
def splitDot (s : String) : List String :=
(splitDotAux s.data []).map fun l => ⟨l⟩

/-- JS parseInt(s, 16): an optional 0x/0X prefix, then the longest prefix of
hex digits; none models NaN (no digit at all). The whitespace and sign forms
accepted by parseInt never occur in the receipt fields modelled here. -/
def jsParseIntHex16 (s : String) : Option ℕ :=
let body := match s.data with
  | '0' :: 'x' :: rest => rest
  | '0' :: 'X' :: rest => rest
  | l => l
let digits := body.takeWhile isHexDigitChar
if digits.isEmpty then none else some (hexListVal digits)

/-- JS BigInt(s) for a 0x-prefixed string: every character after the prefix
must be a hex digit and there must be at least one, otherwise BigInt throws
(modelled by none). -/
def jsBigIntHex (s : String) : Option ℕ :=
match s.data with
| '0' :: 'x' :: rest =>
  if !rest.isEmpty && rest.all isHexDigitChar then some (hexListVal rest) else none
| _ => none

/-- JS BigInt(s) for a plain decimal string: all characters must be digits,
otherwise BigInt throws (modelled by none). -/
def jsBigIntDec (s : String) : Option ℕ :=
if !s.data.isEmpty && s.data.all Char.isDigit then some (decListVal s.data) else none

/-- JS parseFloat on the plain decimal strings produced by the pricing tables
(digits, optionally one dot and further digits), read exactly; none models
NaN. Signs, exponents and further dots are not produced by the source. -/
def jsParseFloatDec (s : String) : Option ℚ :=
match splitDot s with
| [w] =>
  if !w.data.isEmpty && w.data.all Char.isDigit then some (decListVal w.data) else none
| w :: f :: _ =>
  if (w.data ++ f.data).all Char.isDigit && !(w.data.isEmpty && f.data.isEmpty) then
    some ((decListVal w.data : ℚ) + (decListVal f.data : ℚ) / (10 : ℚ) ^ f.data.length)
  else none
| [] => none

/-- Replace the value stored under a key, or append the binding: the effect
of a JS object/Map assignment on an association list. -/
def assocSet {α : Type} : List (String × α) → String → α → List (String × α)
| [], k, v => [(k, v)]
| p :: rest, k, v => if p.1 = k then (k, v) :: rest else p :: assocSet rest k v

/-- JWT payload: the union of the claim sets used by the two token types of
the source (lock-session and x402-access), with absent claims defaulted. -/
structure JwtPayload where
walletAddress : String := ""
deviceId : String := ""
type : String := ""
challengeId : String := ""
txHash : String := ""
iat : ℤ := 0
exp : ℤ := 0
deriving DecidableEq

/-- jwt.sign output: the payload together with the signing key; keeping the
key inside the token models an unforgeable signature. -/
structure Jwt where
payload : JwtPayload
key : String
deriving DecidableEq

/-- Default of process.env.JWT_SECRET, shared by all server variants. -/
def JWT_SECRET : String := "test-secret-key-change-me"

/-- jwt.sign(payload, secret). -/
def jwtSign (p : JwtPayload) (secret : String) : Jwt := ⟨p, secret⟩

/-- jwt.verify(token, secret) at time nowS (seconds): fails on a token signed
with a different key and on an expired token (the jsonwebtoken library
accepts while now < exp). -/
def jwtVerify (t : Jwt) (secret : String) (nowS : ℤ) : Option JwtPayload :=
if t.key = secret ∧ nowS < t.payload.exp then some t.payload else none

/-- An ERC-20 event log entry of an EVM receipt, as returned by
eth_getTransactionReceipt. -/
structure EvmLog where
address : String := ""
topics : List String := []
data : String := ""
deriving DecidableEq

/-- An EVM transaction receipt; fields a malformed RPC response may omit are
Options. The JS field receipt.to is named toAddress here because to is a
reserved word in Lean. -/
structure EvmReceipt where
toAddress : Option String := none
status : String := ""
logs : Option (List EvmLog) := none
deriving DecidableEq

namespace ServerV1

/- First variant contained in server.js: testing-mode payment verification
and 30-minute JWT sessions. -/

structure Device where
deviceId : String
deviceName : String
deviceType : String
model : String
supportsLock : Bool
supportsTimer : Bool
supportsNFC : Bool
supportsBLE : Bool
firmwareVersion : String
status : String
deriving DecidableEq

/-- The mock devices database (identical in server.js, part_000 and
part_001). -/
def devices : List (String × Device) :=
[("X402-LOCK-001",
  { deviceId := "X402-LOCK-001", deviceName := "Smart Bike Lock",
    deviceType := "Bike Lock", model := "X402-BL Pro",
    supportsLock := true, supportsTimer := false, supportsNFC := true,
    supportsBLE := true, firmwareVersion := "1.2.1", status := "online" }),
 ("X402-LOCK-002",
  { deviceId := "X402-LOCK-002", deviceName := "Office Door Lock",
    deviceType := "Door Lock", model := "X402-DL Standard",
    supportsLock := true, supportsTimer := false, supportsNFC := true,
    supportsBLE := true, firmwareVersion := "1.0.5", status := "online" }),
 ("X402-COFFEE-001",
  { deviceId := "X402-COFFEE-001", deviceName := "Smart Coffee Maker",
    deviceType := "Coffee Machine", model := "X402-CM Elite",
    supportsLock := false, supportsTimer := true, supportsNFC := false,
    supportsBLE := true, firmwareVersion := "2.0.1", status := "online" })]

/-- ethers.parseUnits("0.50", 6). -/
def LOCK_SESSION_COST : ℕ := 500000

structure VerifyResult where
verified : Bool
message : String
deriving DecidableEq

/-- verifyPayment of the first server.js variant: the try block returns
verified before any chain interaction (the on-chain code after it is
commented out), so the function is pure and needs no RPC parameter. -/
def verifyPayment (walletAddress deviceId : String) (amountRequired : ℕ) : VerifyResult :=
{ verified := true, message := "Payment verified (testing mode)" }

/-- generateSessionToken: a lock-session JWT valid 1800 seconds from now
(nowMs is Date.now() in milliseconds). -/
def generateSessionToken (walletAddress deviceId : String) (nowMs : ℤ) : Jwt :=
jwtSign
  { walletAddress := walletAddress, deviceId := deviceId, type := "lock-session",
    iat := Int.fdiv nowMs 1000, exp := Int.fdiv nowMs 1000 + 1800 }
  JWT_SECRET

/-- verifySessionToken (nowS in seconds). -/
def verifySessionToken (token : Jwt) (nowS : ℤ) : Option JwtPayload :=
jwtVerify token JWT_SECRET nowS

structure VerifyResp where
status : ℕ
verified : Bool := false
sessionToken : Option Jwt := none
sessionDuration : Option ℕ := none
deriving DecidableEq

/-- POST /devices/:deviceId/verify of the first server.js variant. -/
def verifyRoute (nowMs : ℤ) (deviceId : String) (walletAddress : Option String) : VerifyResp :=
match devices.lookup deviceId with
| none => { status := 404 }
| some device =>
  if !jsTruthyStr walletAddress then { status := 400 }
  else if !device.supportsLock then { status := 400 }
  else
    let paymentCheck := verifyPayment (walletAddress.getD "") deviceId LOCK_SESSION_COST
    if !paymentCheck.verified then { status := 402 }
    else
      { status := 200, verified := true,
        sessionToken := some (generateSessionToken (walletAddress.getD "") deviceId nowMs),
        sessionDuration := some 1800 }

structure ActionResp where
status : ℕ
success : Bool := false
granted : Bool := false
action : String := ""
deriving DecidableEq

/-- POST /devices/:deviceId/unlock of the first server.js variant (auth is
none when the Authorization header is missing or lacks the Bearer prefix).
The handler checks that the device exists and that the bearer token
verifies; the deviceId embedded in the token is never compared with the
path parameter. nowS in seconds. -/
def unlockRoute (nowS : ℤ) (deviceId : String) (auth : Option Jwt) : ActionResp :=
if (devices.lookup deviceId).isNone then { status := 404 }
else
  match auth with
  | none => { status := 401 }
  | some token =>
    match verifySessionToken token nowS with
    | none => { status := 401 }
    | some _ => { status := 200, success := true, granted := true, action := "unlock" }

end ServerV1

namespace ServerV2

/- Second variant contained in server.js: in-memory device state with lazy
expiry, x402-style 402 pricing and real USDC log verification on Base. -/

/-- Default of process.env.BASE_USDC_RECEIVER, lowercased at startup. -/
def BASE_USDC_RECEIVER : String := "0x8469a3a136ae586356baa89c61191d8e2d84b92f"

/-- Default of process.env.BASE_USDC_CONTRACT, lowercased at startup. -/
def BASE_USDC_CONTRACT : String := "0x833589fcd6edb6e08f4c7c32d4f71b54bda02913"

/-- keccak topic of Transfer(address,address,uint256). -/
def TRANSFER_TOPIC : String :=
"0xddf252ad1be2c89b69c2b068fc378daa952ba7f163c4a11628f55a4df523b3ef"

/-- One in-memory device record: state is locked or unlocked, unlockUntil in
ms since epoch (0 when locked). -/
structure DeviceRec where
state : String
unlockUntil : ℚ
deriving DecidableEq

abbrev DevMap := List (String × DeviceRec)

/-- The initial devices table of the second server.js variant. -/
def initialDevices : DevMap := [("bike-1", { state := "locked", unlockUntil := 0 })]

/-- getDevice: lazily creates a locked record at first reference; returns the
record and the updated table. -/
def getDevice (m : DevMap) (id : String) : DeviceRec × DevMap :=
match m.lookup id with
| some d => (d, m)
| none =>
  let d : DeviceRec := { state := "locked", unlockUntil := 0 }
  (d, assocSet m id d)

/-- setLocked: store a locked record, clear unlockUntil, return it. -/
def setLocked (m : DevMap) (deviceId : String) : ℚ × DevMap :=
(0, assocSet m deviceId { state := "locked", unlockUntil := 0 })

/-- setUnlocked: unlockUntil = now + minutes * 60000 ms, overwriting any
prior window; returns unlockUntil and the updated table. -/
def setUnlocked (m : DevMap) (deviceId : String) (minutes : ℚ) (nowMs : ℚ) : ℚ × DevMap :=
let durMs := minutes * 60000
let untilMs := nowMs + durMs
(untilMs, assocSet m deviceId { state := "unlocked", unlockUntil := untilMs })

structure StateResp where
deviceId : String
state : String
unlockUntil : ℚ
remainingMs : ℚ
deriving DecidableEq

/-- GET /api/devices/:id/state of the second server.js variant: lazy expiry
(auto relock) with the strict comparison now > unlockUntil of the source,
then the remaining time. -/
def deviceStateRoute (m : DevMap) (nowMs : ℚ) (id : String) : StateResp × DevMap :=
let gd := getDevice m id
let d0 := gd.1
let m1 := gd.2
let step :=
  if d0.state = "unlocked" ∧ d0.unlockUntil > 0 ∧ nowMs > d0.unlockUntil then
    let dl : DeviceRec := { state := "locked", unlockUntil := 0 }
    (dl, assocSet m1 id dl)
  else (d0, m1)
let d := step.1
let remainingMs := if d.state = "unlocked" ∧ d.unlockUntil > nowMs then d.unlockUntil - nowMs else 0
({ deviceId := id, state := d.state, unlockUntil := d.unlockUntil, remainingMs := remainingMs },
 step.2)

/-- calculatePriceUSDC of the second server.js variant; minutes is the value
Number(minutes) || 0 computed by the source. -/
def calculatePriceUSDC (minutes : ℚ) : String :=
if minutes > 0 ∧ minutes < 1 then "0.01"
else if minutes ≤ 15 then "0.10"
else if minutes ≤ 30 then "0.20"
else if minutes ≤ 60 then "0.30"
else "1.00"

/-- usdcToUnits: BigInt conversion of a decimal USDC string to 6-decimal
minor units, the fractional digits padded/truncated to 6; none models a
BigInt exception on a non-decimal string (propagated to the catch-all of
the caller). -/
def usdcToUnits (amountStr : String) : Option ℕ :=
let parts := splitDot amountStr
let whole := parts.headD ""
let fracRaw := (parts[1]?).getD ""
let frac : String := ⟨(fracRaw.data ++ "000000".data).take 6⟩
match jsBigIntDec (if whole.data.isEmpty then "0" else whole),
      jsBigIntDec (if frac.data.isEmpty then "0" else frac) with
| some w, some f => some (w * 1000000 + f)
| _, _ => none

/-- One iteration of the unlock-confirm log scan (the for loop over
receipt.logs): continue on a log whose address is not the USDC contract,
whose first topic is not the Transfer signature, which lacks the indexed to
topic, whose decoded recipient is not the receiver, or whose data is not
0x-prefixed; otherwise add BigInt(log.data). The accumulator turns to none
when BigInt throws, which the catch-all of the handler converts to 500. -/
def scanLog (receiverLower : String) (acc : Option ℕ) (log : EvmLog) : Option ℕ :=
match acc with
| none => none
| some paid =>
  if !jsTruthyStr (some log.address) ∨ strLower log.address ≠ BASE_USDC_CONTRACT then some paid
  else if log.topics.length = 0 ∨ strLower (log.topics.headD "") ≠ TRANSFER_TOPIC then some paid
  else if log.topics.length < 3 then some paid
  else
    let toTopic := (log.topics[2]?).getD ""
    let toAddr := strLower ("0x" ++ sliceLast40 toTopic)
    if toAddr ≠ receiverLower then some paid
    else if !jsTruthyStr (some log.data) ∨ !startsWith0x log.data then some paid
    else
      match jsBigIntHex log.data with
      | none => none
      | some v => some (paid + v)

structure ConfirmReq where
deviceId : Option String := none
minutes : Option ℚ := none
txHash : Option String := none
deriving DecidableEq

structure ConfirmResp where
status : ℕ
ok : Bool := false
unlockUntil : Option ℚ := none
error : String := ""
deriving DecidableEq

/-- POST /api/unlock-confirm of the second server.js variant. rpc is the
outcome of the awaited axios eth_getTransactionReceipt call: Except.error
models a rejected promise (network error, timeout), which the catch-all of
the handler turns into HTTP 500; Except.ok none models a response whose
result field is empty (transaction not found). rpcConfigured models
BASE_RPC_URL being set. The absent and zero forms of the minutes field are
both falsy in JS. -/
def unlockConfirm (rpcConfigured : Bool) (m : DevMap) (nowMs : ℚ) (req : ConfirmReq)
    (rpc : Except Unit (Option EvmReceipt)) : ConfirmResp × DevMap :=
if !jsTruthyStr req.deviceId ∨ req.minutes = none ∨ req.minutes = some 0 ∨
   !jsTruthyStr req.txHash then
  ({ status := 400, error := "deviceId, minutes, and txHash are required" }, m)
else if !rpcConfigured then
  ({ status := 500, error := "Server not configured for on-chain verification" }, m)
else
  match rpc with
  | .error _ => ({ status := 500, error := "Internal server error" }, m)
  | .ok none => ({ status := 400, error := "Transaction not found on Base RPC" }, m)
  | .ok (some receipt) =>
    if receipt.status ≠ "0x1" then
      ({ status := 400, error := "Transaction did not succeed (status != 0x1)" }, m)
    else
      let minutes := req.minutes.getD 0
      let requiredAmountStr := calculatePriceUSDC minutes
      match usdcToUnits requiredAmountStr with
      | none => ({ status := 500, error := "Internal server error" }, m)
      | some requiredUnits =>
        let logs := receipt.logs.getD []
        match logs.foldl (scanLog BASE_USDC_RECEIVER) (some 0) with
        | none => ({ status := 500, error := "Internal server error" }, m)
        | some paidUnits =>
          if paidUnits < requiredUnits then
            ({ status := 400, error := "Payment too small" }, m)
          else
            let su := setUnlocked m (req.deviceId.getD "") minutes nowMs
            ({ status := 200, ok := true, unlockUntil := some su.1 }, su.2)

end ServerV2

namespace VerifyBase

/- services/verifyBasePayment.js. -/

/-- The USDC contract hardcoded by the service, lowercased at startup. -/
def USDC_ADDRESS : String := "0xd9aaec86b65d86f6a7b5b1b0c42fff0905a1aa77"

/-- verifyBasePayment. receiver is process.env.BASE_USDC_RECEIVER lowercased;
rpc the awaited axios result. Any thrown error (rejected promise, field
access on a missing value) lands in the catch and yields false. Exactly as
in the source, the function inspects only logs[0], compares the transaction
toAddress rather than each log address, never reads receipt.status, never
checks the Transfer topic, and compares parseInt(data,16) / 1e6 against
parseFloat(expectedAmount) (JS doubles, modelled by exact rationals; the
rounding is the identity on every magnitude occurring in these claims). -/
def verifyBasePayment (receiver : String) (rpc : Except Unit (Option EvmReceipt))
    (expectedAmount : String) : Bool :=
match rpc with
| .error _ => false
| .ok none => false
| .ok (some receipt) =>
  match receipt.toAddress with
  | none => false
  | some toAddr =>
    if strLower toAddr ≠ USDC_ADDRESS then false
    else
      match receipt.logs with
      | none => false
      | some logs =>
        match logs.head? with
        | none => false
        | some transferLog =>
          match transferLog.topics[2]? with
          | none => false
          | some t2 =>
            let receiverAddr := "0x" ++ substringFrom26 t2
            if strLower receiverAddr ≠ receiver then false
            else
              match jsParseIntHex16 transferLog.data with
              | none => false
              | some n =>
                match jsParseFloatDec expectedAmount with
                | none => false
                | some expectedQ => decide ((n : ℚ) / 1000000 ≥ expectedQ)

end VerifyBase

namespace X402

/- unnamed/part_001: the X.402 challenge flow with Solana TSE transaction
verification. -/

def TSE_MINT : String := "yrEwtVJKbxghF3P3tJtPARSXUctkBvQ2xyqvRLztpRD"

/-- Default of process.env.TSE_RECEIVER_WALLET. -/
def TSE_RECEIVER_WALLET : String := "E7gnXdN4Nneh5KHBUgXVdUNXkBYtwNF4fkpzZU3otnmX"

def TSE_DECIMALS : ℕ := 9

/-- One entry of meta.preTokenBalances / meta.postTokenBalances. The
uiTokenAmount.amount decimal string is modelled by its BigInt value. -/
structure SolTokenBalance where
accountIndex : ℕ := 0
mint : String := ""
owner : String := ""
amount : ℕ := 0
deriving DecidableEq

/-- tx.meta; err models the truthiness of meta.err. -/
structure SolMeta where
err : Bool := false
preTokenBalances : Option (List SolTokenBalance) := none
postTokenBalances : Option (List SolTokenBalance) := none
deriving DecidableEq

/-- A fetched Solana transaction. -/
structure SolTx where
meta : Option SolMeta := none
deriving DecidableEq

structure VerifyResult where
verified : Bool
message : String
amount : Option ℕ := none
deriving DecidableEq

/-- The loop of verifySolanaTsePaymentByTx: post[i] is paired with pre[i] by
array position (a missing pre entry reads as 0n), a positive balance
increase on any entry whose mint matches is added. Neither the owner of the
account nor its accountIndex is ever consulted. -/
def sumMintDeltas (mint : String) : List SolTokenBalance → List SolTokenBalance → ℤ
| _, [] => 0
| pre, p :: postRest =>
  let oa : ℤ :=
    match pre.head? with
    | some old => (old.amount : ℤ)
    | none => 0
  let rest := sumMintDeltas mint pre.tail postRest
  if p.mint = mint then
    let diff := (p.amount : ℤ) - oa
    (if diff > 0 then diff else 0) + rest
  else rest

/-- verifySolanaTsePaymentByTx. fetch is the outcome of the awaited
connection.getTransaction call (Except.error models a rejected promise,
handled by the catch branch). expectedReceiver is accepted exactly as in
the source, whose body never reads it. PublicKey(tokenMint).toBase58() is
the identity on the valid base58 mint constants passed by the callers. -/
def verifySolanaTsePaymentByTx (fetch : Except Unit (Option SolTx))
    (expectedReceiver tokenMint : String) (amountRequired : ℕ) : VerifyResult :=
match fetch with
| .error _ => { verified := false, message := "Solana tx verification failed" }
| .ok none => { verified := false, message := "Transaction not found" }
| .ok (some tx) =>
  match tx.meta with
  | none => { verified := false, message := "On-chain transaction failed" }
  | some meta =>
    if meta.err then { verified := false, message := "On-chain transaction failed" }
    else
      let pre := meta.preTokenBalances.getD []
      let post := meta.postTokenBalances.getD []
      let receivedAmount := sumMintDeltas tokenMint pre post
      if receivedAmount ≥ (amountRequired : ℤ) then
        { verified := true, message := "TSE payment verified by transaction",
          amount := some receivedAmount.toNat }
      else
        { verified := false, message := "Transaction did not send required TSE amount" }

/-- One record of the in-memory challenge table. -/
structure X402Record where
deviceId : String := ""
walletAddress : String := ""
chain : String := "solana"
token : String := "TSE"
amount : ℕ := 0
receiver : String := ""
createdAt : ℤ := 0
expiresAt : ℤ := 0
paid : Bool := false
txHash : Option String := none
accessToken : Option Jwt := none
deriving DecidableEq

abbrev ChallengeMap := List (String × X402Record)

/-- createX402Challenge; the random challengeId (crypto.randomBytes) is an
input of the model, times in ms. -/
def createX402Challenge (m : ChallengeMap) (challengeId deviceId walletAddress chain token : String)
    (amount : ℕ) (receiver : String) (ttlSeconds nowMs : ℤ) : ChallengeMap :=
assocSet m challengeId
  { deviceId := deviceId, walletAddress := walletAddress, chain := chain, token := token,
    amount := amount, receiver := receiver, createdAt := nowMs,
    expiresAt := nowMs + ttlSeconds * 1000, paid := false, txHash := none, accessToken := none }

structure VerifyReq where
deviceId : String := ""
walletAddress : Option String := none
challengeId : Option String := none
txHash : Option String := none
deriving DecidableEq

structure VerifyResp where
status : ℕ
verified : Bool := false
accessToken : Option Jwt := none
deriving DecidableEq

/-- Outcome of the synchronous prefix of the verify handler: either an early
response, or the decision to proceed to the awaited payment check with the
challenge record read from the table. -/
inductive Phase1Out where
| early (resp : VerifyResp)
| proceed (challengeId : String) (record : X402Record)
deriving DecidableEq

/-- POST /x402/:deviceId/verify, the part before the awaited payment check:
request validation, challenge lookup, device/wallet match, expiry check and
the paid (replay) check, in source order. No state is mutated here. The 409
response carries the accessToken already stored on the record. -/
def x402VerifyPhase1 (challs : ChallengeMap) (nowMs : ℤ) (req : VerifyReq) : Phase1Out :=
if (ServerV1.devices.lookup req.deviceId).isNone then .early { status := 404 }
else if !jsTruthyStr req.walletAddress ∨ !jsTruthyStr req.challengeId ∨
        !jsTruthyStr req.txHash then .early { status := 400 }
else
  match challs.lookup (req.challengeId.getD "") with
  | none => .early { status := 404 }
  | some record =>
    if record.deviceId ≠ req.deviceId then .early { status := 400 }
    else if record.walletAddress ≠ req.walletAddress.getD "" then .early { status := 400 }
    else if nowMs > record.expiresAt then .early { status := 410 }
    else if record.paid then .early { status := 409, accessToken := record.accessToken }
    else .proceed (req.challengeId.getD "") record

/-- POST /x402/:deviceId/verify, the part after the awaited payment check:
on success it signs the x402-access token and marks the record paid. As in
the source, the paid flag is not re-read here. -/
def x402VerifyPhase2 (challs : ChallengeMap) (nowMs : ℤ) (req : VerifyReq)
    (challengeId : String) (record : X402Record) (paymentCheck : VerifyResult) :
    VerifyResp × ChallengeMap :=
if !paymentCheck.verified then ({ status := 402 }, challs)
else
  let payload : JwtPayload :=
    { type := "x402-access", walletAddress := req.walletAddress.getD "",
      deviceId := req.deviceId, challengeId := challengeId, txHash := req.txHash.getD "",
      iat := Int.fdiv nowMs 1000, exp := Int.fdiv nowMs 1000 + 1800 }
  let accessToken := jwtSign payload JWT_SECRET
  let updated :=
    { record with paid := true, txHash := some (req.txHash.getD ""),
                  accessToken := some accessToken }
  ({ status := 200, verified := true, accessToken := some accessToken },
   assocSet challs challengeId updated)

/-- The whole verify handler when the request runs without interleaving:
phase 1 immediately followed by phase 2, the payment check computed from
the chain world (txHash to fetch outcome) on the record read in phase 1. -/
def x402Verify (world : String → Except Unit (Option SolTx)) (challs : ChallengeMap)
    (nowMs : ℤ) (req : VerifyReq) : VerifyResp × ChallengeMap :=
match x402VerifyPhase1 challs nowMs req with
| .early resp => (resp, challs)
| .proceed cid record =>
  x402VerifyPhase2 challs nowMs req cid record
    (verifySolanaTsePaymentByTx (world (req.txHash.getD "")) record.receiver TSE_MINT
      record.amount)

/-- requireX402 middleware followed by POST /x402/:deviceId/unlock: a token
of the wrong type fails the middleware with 401, a valid token for another
device is rejected with 403 by the route. nowS in seconds. -/
def x402Unlock (nowS : ℤ) (deviceId : String) (auth : Option Jwt) : ServerV1.ActionResp :=
match auth with
| none => { status := 401 }
| some token =>
  match jwtVerify token JWT_SECRET nowS with
  | none => { status := 401 }
  | some decoded =>
    if decoded.type ≠ "x402-access" then { status := 401 }
    else if decoded.deviceId ≠ deviceId then { status := 403 }
    else { status := 200, success := true, granted := true, action := "unlock" }

/-- verifyBaseUSDCPayment (identical in part_000 and part_001): the
balance-check strategy on Base. checksummed is the outcome of the
ethers.getAddress(walletAddress) library call (Except.error models the
throw on a malformed address, caught by the inner try); balanceRpc the
outcome of the awaited balanceOf chain call (Except.error models a rejected
promise, handled by the outer catch). The source compares
parseFloat(formatUnits(balance, 6)) against
parseFloat(formatUnits(amountRequired, 6)); formatUnits prints the exact
6-decimal string, so both sides are the exact scaled rationals here (the
binary64 rounding is the identity at the magnitudes of these claims). The
display-only currency and balance response fields are omitted. -/
def verifyBaseUSDCPayment (checksummed : Except Unit String)
    (balanceRpc : Except Unit ℕ) (amountRequired : ℕ) : VerifyResult :=
match checksummed with
| .error _ => { verified := false, message := "Invalid wallet address format" }
| .ok _ =>
  match balanceRpc with
  | .error _ => { verified := false, message := "USDC verification failed" }
  | .ok balance =>
    if (balance : ℚ) / 1000000 ≥ (amountRequired : ℚ) / 1000000 then
      { verified := true, message := "USDC payment verified" }
    else
      { verified := false, message := "Insufficient USDC" }

/-- The connection.getParsedAccountInfo response: the outer Option models
accountInfo.value (null when the account is missing), the inner Option
models accountInfo.value.data.parsed (absent when the account data does not
parse), and the payload is the BigInt value of
...data.parsed.info.tokenAmount.amount. -/
structure ParsedAccountInfo where
value : Option (Option ℕ) := none
deriving DecidableEq

/-- verifySolanaTokenPayment (identical in part_000 and part_001): the
balance-check strategy on Solana. walletKey is the outcome of the
PublicKey(walletAddress) parse (Except.error models the throw, caught by
the inner try); accountsRpc the outcome of the awaited
getTokenAccountsByOwner call, its payload reduced to the account list the
source only measures and indexes; infoRpc the outcome of the awaited
getParsedAccountInfo call on accounts[0]. Rejected promises land in the
catch. In the source the second call is only awaited when the account list
is nonempty; here the outcome is a parameter that is likewise only
consulted past the length check. PublicKey(tokenMint) is the identity on
the valid base58 mint constant passed by the callers. The final comparison
balance >= BigInt(amountRequired) is exact BigInt in the source. -/
def verifySolanaTokenPayment (walletKey : Except Unit Unit)
    (accountsRpc : Except Unit (List Unit))
    (infoRpc : Except Unit ParsedAccountInfo) (amountRequired : ℕ) : VerifyResult :=
match walletKey with
| .error _ => { verified := false, message := "Invalid Solana wallet address format" }
| .ok _ =>
  match accountsRpc with
  | .error _ => { verified := false, message := "Solana verification failed" }
  | .ok accounts =>
    if accounts.length = 0 then
      { verified := false, message := "No TSE token account found. Please acquire some TSE." }
    else
      match infoRpc with
      | .error _ => { verified := false, message := "Solana verification failed" }
      | .ok info =>
        match info.value with
        | none => { verified := false, message := "Error reading token account" }
        | some none => { verified := false, message := "Error reading token account" }
        | some (some balance) =>
          if balance ≥ amountRequired then
            { verified := true, message := "TSE payment verified" }
          else
            { verified := false, message := "Insufficient TSE" }

end X402

/-- Modelled from the spec, section 4.2 TransactionCheck step 2 (EVM): a log
entry is kept exactly when its contract address equals the expected token
contract, its first topic is the value-transfer signature, and the recipient
decoded as the right-aligned 20 bytes (40 hex characters) of the indexed to
topic equals the receiver. Written from the spec wording. -/
def specKeep (contract receiver : String) (log : EvmLog) : Bool :=
strLower log.address == contract &&
strLower (log.topics.headD "") == ServerV2.TRANSFER_TOPIC &&
decide (3 ≤ log.topics.length) &&
strLower ("0x" ++ sliceLast40 ((log.topics[2]?).getD "")) == receiver

/-- Modelled from the spec, section 4.2 TransactionCheck step 2 (EVM): sum
the amounts of the kept log entries (a single transaction may contain
multiple qualifying transfers). Written from the spec wording, to be
compared with the unlock-confirm implementation. -/
def specTransferSum (contract receiver : String) (receipt : EvmReceipt) : ℕ :=
(((receipt.logs.getD []).filter (specKeep contract receiver)).map
  (fun log => (jsBigIntHex log.data).getD 0)).sum

/-- A log whose data is 0x-prefixed well-formed hex, so that BigInt(log.data)
does not throw. -/
def logWf (log : EvmLog) : Prop :=
startsWith0x log.data = true ∧ (jsBigIntHex log.data).isSome = true

instance (log : EvmLog) : Decidable (logWf log) := by
unfold logWf
infer_instance

/-- An unlock-confirm request with all three body fields present and truthy. -/
def wfConfirmReq (req : ServerV2.ConfirmReq) : Prop :=
jsTruthyStr req.deviceId = true ∧ req.minutes ≠ none ∧ req.minutes ≠ some 0 ∧
jsTruthyStr req.txHash = true

/-- An x402 verify request that passes all checks of the handler up to the
expiry/replay decision: the device exists, the body fields are truthy, and
the challenge record matches device and wallet. -/
def wfVerifyReq (challs : X402.ChallengeMap) (req : X402.VerifyReq)
    (record : X402.X402Record) : Prop :=
(ServerV1.devices.lookup req.deviceId).isSome = true ∧
jsTruthyStr req.walletAddress = true ∧
jsTruthyStr req.challengeId = true ∧
jsTruthyStr req.txHash = true ∧
challs.lookup (req.challengeId.getD "") = some record ∧
record.deviceId = req.deviceId ∧
record.walletAddress = req.walletAddress.getD ""

/- Concrete example values used by the closed witness and counterexample
theorems below. -/

/-- A pre-balance of 0 raw TSE on a token account owned by a third party. -/
def tseBalBefore : X402.SolTokenBalance :=
{ accountIndex := 1, mint := X402.TSE_MINT, owner := "SomeoneElse", amount := 0 }

/-- The matching post-balance of 1000 raw TSE. -/
def tseBalAfter : X402.SolTokenBalance :=
{ accountIndex := 1, mint := X402.TSE_MINT, owner := "SomeoneElse", amount := 1000 }

/-- A successful Solana transaction crediting 1000 raw TSE to that token
account. -/
def tseTx1000 : X402.SolTx :=
{ meta := some { err := false, preTokenBalances := some [tseBalBefore],
                 postTokenBalances := some [tseBalAfter] } }

/-- An x402-access payload scoped to X402-LOCK-001. -/
def x402PayloadLock1 : JwtPayload :=
{ walletAddress := "0xabc", deviceId := "X402-LOCK-001", type := "x402-access",
  iat := 0, exp := 1800 }

/-- A lock-session payload scoped to X402-LOCK-001 as generateSessionToken
builds it at time 0. -/
def lockSessionPayloadLock1 : JwtPayload :=
{ walletAddress := "0xdef", deviceId := "X402-LOCK-001", type := "lock-session",
  iat := 0, exp := 1800 }

/-- A device record already unlocked until 30000 ms, for the C9 witness. -/
def bikeUnlocked30000 : ServerV2.DeviceRec := { state := "unlocked", unlockUntil := 30000 }

/-- The 32-byte to-topic whose right-aligned 20 bytes are the configured
USDC receiver. -/
def usdcReceiverTopic : String :=
"0x0000000000000000000000008469a3a136ae586356baa89c61191d8e2d84b92f"

/-- A bona fide USDC Transfer log to the configured receiver carrying the
given hex amount. -/
def usdcTransferLog (dataHex : String) : EvmLog :=
{ address := ServerV2.BASE_USDC_CONTRACT,
  topics := [ServerV2.TRANSFER_TOPIC, "0x0", usdcReceiverTopic],
  data := dataHex }

/-- A successful receipt with two qualifying transfers of 50000 and 60000
minor units (in that order) to the receiver. -/
def receipt5060 : EvmReceipt :=
{ toAddress := some VerifyBase.USDC_ADDRESS, status := "0x1",
  logs := some [usdcTransferLog "0xc350", usdcTransferLog "0xea60"] }

/-- A successful receipt with two qualifying transfers of 60000 and 50000
minor units (in that order) to the receiver. -/
def receipt6050 : EvmReceipt :=
{ toAddress := some VerifyBase.USDC_ADDRESS, status := "0x1",
  logs := some [usdcTransferLog "0xea60", usdcTransferLog "0xc350"] }

/-- A receipt whose on-chain status is the failure value 0x0, carrying one
qualifying transfer of 200000 minor units to the receiver. -/
def receiptFailedStatus : EvmReceipt :=
{ toAddress := some VerifyBase.USDC_ADDRESS, status := "0x0",
  logs := some [usdcTransferLog "0x30d40"] }

/-- A receipt parameterised by the single transfer log data, successful
status. -/
def oneLogReceipt (dataHex : String) : EvmReceipt :=
{ toAddress := some VerifyBase.USDC_ADDRESS, status := "0x1",
  logs := some [usdcTransferLog dataHex] }

/-- An unlock-confirm request for 15 minutes on bike-1. -/
def confirmReq15 : ServerV2.ConfirmReq :=
{ deviceId := some "bike-1", minutes := some 15, txHash := some "0xfeed01" }

/-- An unexpired, unpaid x402 challenge for X402-LOCK-001, requiring 1000
raw TSE to the configured receiver wallet. -/
def chalC1 : X402.X402Record :=
{ deviceId := "X402-LOCK-001", walletAddress := "W1", amount := 1000,
  receiver := X402.TSE_RECEIVER_WALLET, expiresAt := 1000000000 }

/-- The same challenge already consumed: paid, with its access token. -/
def chalPaid : X402.X402Record :=
{ chalC1 with
  paid := true,
  accessToken := some (jwtSign x402PayloadLock1 JWT_SECRET) }

/-- A chain world in which every transaction hash resolves to the successful
1000-raw-TSE transfer. -/
def tseWorld : String → Except Unit (Option X402.SolTx) := fun _ => .ok (some tseTx1000)

/-- Two challenges (c1 and c2) for the same device and wallet, both open. -/
def challsTwo : X402.ChallengeMap := [("c1", chalC1), ("c2", chalC1)]

/-- A single open challenge c1. -/
def challsOne : X402.ChallengeMap := [("c1", chalC1)]

/-- Verify request presenting tx1 against challenge c1. -/
def verifyReqC1 : X402.VerifyReq :=
{ deviceId := "X402-LOCK-001", walletAddress := some "W1",
  challengeId := some "c1", txHash := some "tx1" }

/-- Verify request presenting the same tx1 against challenge c2. -/
def verifyReqC2 : X402.VerifyReq :=
{ deviceId := "X402-LOCK-001", walletAddress := some "W1",
  challengeId := some "c2", txHash := some "tx1" }

/-- The single already-consumed challenge c1. -/
def challsPaidOne : X402.ChallengeMap := [("c1", chalPaid)]

/-- The payment check both concurrent verify requests of the C8 race obtain
for tx1 against the c1 challenge data. -/
def pcC1 : X402.VerifyResult :=
X402.verifySolanaTsePaymentByTx (.ok (some tseTx1000)) chalC1.receiver X402.TSE_MINT
  chalC1.amount

/-- Storing under a key makes the stored value the one looked up. -/
theorem lookup_assocSet_self {α : Type} (m : List (String × α)) (k : String) (v : α) :
    (assocSet m k v).lookup k = some v := by
induction m with
| nil => simp [assocSet]
| cons p rest ih =>
  by_cases h : p.1 = k
  · simp [assocSet, h]
  · have hb : (k == p.1) = false := by simp [Ne.symm h]
    simp [assocSet, h, List.lookup, hb, ih]

/-- C3: in the first server variant, verifyPayment reports verified for every
input without any chain query; POST /devices/:deviceId/verify issues the
1800-second session token for every existing lock device and truthy
walletAddress; and no input at all makes the route answer 402. -/
theorem c3_testing_mode_always_verifies :
    (∀ w d a, (ServerV1.verifyPayment w d a).verified = true) ∧
    (∀ (nowMs : ℤ) (id : String) (w : Option String) (dev : ServerV1.Device),
      ServerV1.devices.lookup id = some dev → dev.supportsLock = true →
      jsTruthyStr w = true →
      (ServerV1.verifyRoute nowMs id w).status = 200 ∧
      (ServerV1.verifyRoute nowMs id w).verified = true ∧
      (ServerV1.verifyRoute nowMs id w).sessionDuration = some 1800 ∧
      (ServerV1.verifyRoute nowMs id w).sessionToken =
        some (ServerV1.generateSessionToken (w.getD "") id nowMs) ∧
      (ServerV1.generateSessionToken (w.getD "") id nowMs).payload.exp -
        (ServerV1.generateSessionToken (w.getD "") id nowMs).payload.iat = 1800) ∧
    (∀ (nowMs : ℤ) (id : String) (w : Option String),
      (ServerV1.verifyRoute nowMs id w).status ≠ 402) := by
refine ⟨fun w d a => rfl, ?_, ?_⟩
· intro nowMs id w dev hdev hlock hw
  simp [ServerV1.verifyRoute, hdev, hlock, hw, ServerV1.verifyPayment,
    ServerV1.generateSessionToken, jwtSign]
· intro nowMs id w
  unfold ServerV1.verifyRoute
  cases ServerV1.devices.lookup id with
  | none => simp
  | some dev =>
    by_cases hw : jsTruthyStr w
    · by_cases hl : dev.supportsLock <;> simp [hw, hl, ServerV1.verifyPayment]
    · simp [hw]

/-- C3 witness: the existing lock device X402-LOCK-001 with a concrete
wallet receives a 200 with the 1800-second session token. -/
theorem c3_testing_mode_always_verifies_witness :
    (ServerV1.verifyRoute 0 "X402-LOCK-001" (some "0xabc")).status = 200 ∧
    (ServerV1.verifyRoute 0 "X402-LOCK-001" (some "0xabc")).verified = true ∧
    (ServerV1.verifyRoute 0 "X402-LOCK-001" (some "0xabc")).sessionDuration = some 1800 := by
have h := c3_testing_mode_always_verifies.2.1 0 "X402-LOCK-001" (some "0xabc")
  { deviceId := "X402-LOCK-001", deviceName := "Smart Bike Lock",
    deviceType := "Bike Lock", model := "X402-BL Pro",
    supportsLock := true, supportsTimer := false, supportsNFC := true,
    supportsBLE := true, firmwareVersion := "1.2.1", status := "online" }
  (by decide) rfl rfl
exact ⟨h.1, h.2.1, h.2.2.1⟩

/-- C10: the result of verifySolanaTsePaymentByTx does not depend on its
expectedReceiver argument at all, and every fetched successful transaction
whose positive mint-matching balance deltas (paired with the pre-balances
by array position, the account owner never consulted) sum to at least
amountRequired verifies, for any expectedReceiver. -/
theorem c10_receiver_independent :
    (∀ fetch r1 r2 mint amt,
      X402.verifySolanaTsePaymentByTx fetch r1 mint amt =
      X402.verifySolanaTsePaymentByTx fetch r2 mint amt) ∧
    (∀ (tx : X402.SolTx) (meta : X402.SolMeta) (r mint : String) (amt : ℕ),
      tx.meta = some meta → meta.err = false →
      (amt : ℤ) ≤ X402.sumMintDeltas mint (meta.preTokenBalances.getD [])
        (meta.postTokenBalances.getD []) →
      (X402.verifySolanaTsePaymentByTx (.ok (some tx)) r mint amt).verified = true) := by
refine ⟨fun fetch r1 r2 mint amt => rfl, ?_⟩
intro tx meta r mint amt hmeta herr hsum
simp [X402.verifySolanaTsePaymentByTx, hmeta, herr, hsum]

/-- C10 witness: a transaction crediting 1000 raw TSE to a token account
owned by a third party (not the configured receiver wallet) verifies against
expectedReceiver = TSE_RECEIVER_WALLET. -/
theorem c10_receiver_independent_witness :
    (X402.verifySolanaTsePaymentByTx (.ok (some tseTx1000))
      X402.TSE_RECEIVER_WALLET X402.TSE_MINT 1000).verified = true := by
exact c10_receiver_independent.2 tseTx1000
  { err := false, preTokenBalances := some [tseBalBefore],
    postTokenBalances := some [tseBalAfter] }
  X402.TSE_RECEIVER_WALLET X402.TSE_MINT 1000 rfl rfl (by decide)

/-- C2 counterexample: a lock-session credential embedding deviceId
X402-LOCK-001 presented against the legacy unlock route of
X402-COFFEE-001 is accepted with 200, not rejected with 403. -/
theorem c2_wrong_device_accepted_counterexample :
    (ServerV1.unlockRoute 10 "X402-COFFEE-001"
      (some (ServerV1.generateSessionToken "0xabc" "X402-LOCK-001" 0))).status = 200 ∧
    (ServerV1.unlockRoute 10 "X402-COFFEE-001"
      (some (ServerV1.generateSessionToken "0xabc" "X402-LOCK-001" 0))).success = true := by
decide

/-- C2 amended: only the X.402 routes enforce device scoping: a valid
x402-access credential embedding another deviceId is rejected with 403,
while the legacy unlock route accepts any valid lock-session credential
against any existing device, whatever deviceId it embeds. -/
theorem c2_device_scoping :
    (∀ (nowS : ℤ) (d : String) (t : Jwt) (p : JwtPayload),
      jwtVerify t JWT_SECRET nowS = some p → p.type = "x402-access" → p.deviceId ≠ d →
      X402.x402Unlock nowS d (some t) = { status := 403 }) ∧
    (∀ (nowS : ℤ) (d : String) (t : Jwt) (p : JwtPayload),
      (ServerV1.devices.lookup d).isSome = true →
      ServerV1.verifySessionToken t nowS = some p → p.deviceId ≠ d →
      (ServerV1.unlockRoute nowS d (some t)).status = 200 ∧
      (ServerV1.unlockRoute nowS d (some t)).success = true) := by
constructor
· intro nowS d t p hv htype hne
  simp [X402.x402Unlock, hv, htype, hne]
· intro nowS d t p hdev hv hne
  obtain ⟨x, hx⟩ := Option.isSome_iff_exists.mp hdev
  simp [ServerV1.unlockRoute, hx, hv]

/-- C2 witness: the 403 of the X.402 route and the 200 of the legacy route
at concrete tokens for X402-LOCK-001 presented against X402-LOCK-002. -/
theorem c2_device_scoping_witness :
    X402.x402Unlock 10 "X402-LOCK-002"
      (some (jwtSign x402PayloadLock1 JWT_SECRET)) = { status := 403 } ∧
    (ServerV1.unlockRoute 10 "X402-LOCK-002"
      (some (ServerV1.generateSessionToken "0xdef" "X402-LOCK-001" 0))).status = 200 := by
constructor
· exact c2_device_scoping.1 10 "X402-LOCK-002" (jwtSign x402PayloadLock1 JWT_SECRET)
    x402PayloadLock1 (by decide) rfl (by decide)
· exact (c2_device_scoping.2 10 "X402-LOCK-002"
    (ServerV1.generateSessionToken "0xdef" "X402-LOCK-001" 0)
    lockSessionPayloadLock1 (by decide) (by decide) (by decide)).1

/-- C9 amended: immediately after setUnlocked, a read at the same instant
reports unlocked with exactly minutes * 60000 ms remaining; a read strictly
after unlockExpiresAt relocks the device as a side effect and reports locked
with 0 remaining; but the relock comparison of the source is strict, so the
boundary instant now = unlockExpiresAt is not covered (see the
counterexample). -/
theorem c9_lazy_expiry :
    (∀ (m : ServerV2.DevMap) (id : String) (minutes nowMs : ℚ), 0 < minutes →
      (ServerV2.deviceStateRoute (ServerV2.setUnlocked m id minutes nowMs).2 nowMs id).1.state
        = "unlocked" ∧
      (ServerV2.deviceStateRoute (ServerV2.setUnlocked m id minutes nowMs).2 nowMs id).1.remainingMs
        = minutes * 60000) ∧
    (∀ (m : ServerV2.DevMap) (id : String) (d : ServerV2.DeviceRec) (nowMs : ℚ),
      m.lookup id = some d → d.state = "unlocked" → 0 < d.unlockUntil →
      d.unlockUntil < nowMs →
      (ServerV2.deviceStateRoute m nowMs id).1.state = "locked" ∧
      (ServerV2.deviceStateRoute m nowMs id).1.remainingMs = 0 ∧
      (ServerV2.deviceStateRoute m nowMs id).2.lookup id =
        some { state := "locked", unlockUntil := 0 }) := by
constructor
· intro m id minutes nowMs hm
  have hl : (ServerV2.setUnlocked m id minutes nowMs).2.lookup id =
      some { state := "unlocked", unlockUntil := nowMs + minutes * 60000 } := by
    simp [ServerV2.setUnlocked]
    exact lookup_assocSet_self m id _
  have hnogt : ¬ nowMs > nowMs + minutes * 60000 := by nlinarith
  have hgt : nowMs + minutes * 60000 > nowMs := by nlinarith
  constructor
  · simp [ServerV2.deviceStateRoute, ServerV2.getDevice, hl, hnogt, hgt]
  · simp [ServerV2.deviceStateRoute, ServerV2.getDevice, hl, hnogt, hgt]
· intro m id d nowMs hd hstate hpos hlt
  have hgt : nowMs > d.unlockUntil := hlt
  refine ⟨?_, ?_, ?_⟩
  · simp [ServerV2.deviceStateRoute, ServerV2.getDevice, hd, hstate, hpos, hgt]
  · simp [ServerV2.deviceStateRoute, ServerV2.getDevice, hd, hstate, hpos, hgt]
  · simp [ServerV2.deviceStateRoute, ServerV2.getDevice, hd, hstate, hpos, hgt,
      lookup_assocSet_self]

/-- C9 witness: reading bike-1 right after a half-minute unlock at time 5
shows unlocked with 30000 ms remaining, and reading a device unlocked until
30000 at time 30001 relocks it and reports locked with 0 remaining. -/
theorem c9_lazy_expiry_witness :
    ((ServerV2.deviceStateRoute (ServerV2.setUnlocked ServerV2.initialDevices "bike-1" (1/2) 5).2
        5 "bike-1").1.state = "unlocked" ∧
     (ServerV2.deviceStateRoute (ServerV2.setUnlocked ServerV2.initialDevices "bike-1" (1/2) 5).2
        5 "bike-1").1.remainingMs = (1/2 : ℚ) * 60000) ∧
    ((ServerV2.deviceStateRoute [("bike-1", bikeUnlocked30000)] 30001 "bike-1").1.state
        = "locked" ∧
     (ServerV2.deviceStateRoute [("bike-1", bikeUnlocked30000)] 30001 "bike-1").1.remainingMs
        = 0) := by
constructor
· exact c9_lazy_expiry.1 ServerV2.initialDevices "bike-1" (1/2) 5 (by norm_num)
· have h := c9_lazy_expiry.2 [("bike-1", bikeUnlocked30000)] "bike-1" bikeUnlocked30000 30001
    (by decide) rfl (by norm_num [bikeUnlocked30000]) (by norm_num [bikeUnlocked30000])
  exact ⟨h.1, h.2.1⟩

/-- C9 counterexample: after unlock of bike-1 for 1 minute at time 0
(unlockExpiresAt = 60000), the read at exactly now = 60000 reports state
unlocked (with 0 ms remaining) and leaves the stored record unlocked: the
claimed transition to Locked at now ≥ unlockExpiresAt does not happen at the
boundary, because the source compares strictly (now > unlockUntil). -/
theorem c9_boundary_read_counterexample :
    (ServerV2.deviceStateRoute (ServerV2.setUnlocked ServerV2.initialDevices "bike-1" 1 0).2
       60000 "bike-1").1.state = "unlocked" ∧
    (ServerV2.deviceStateRoute (ServerV2.setUnlocked ServerV2.initialDevices "bike-1" 1 0).2
       60000 "bike-1").1.remainingMs = 0 ∧
    (ServerV2.deviceStateRoute (ServerV2.setUnlocked ServerV2.initialDevices "bike-1" 1 0).2
       60000 "bike-1").2.lookup "bike-1" =
      some { state := "unlocked", unlockUntil := 60000 } ∧
    ("unlocked" : String) ≠ "locked" := by
refine ⟨?_, ?_, ?_, by decide⟩ <;>
  norm_num [ServerV2.deviceStateRoute, ServerV2.getDevice, ServerV2.setUnlocked,
    ServerV2.initialDevices, assocSet, List.lookup]

/- Evaluation facts for the concrete strings of the examples, established by
kernel computation. -/

/-- The USDC contract constant is already lowercase. -/
theorem strLower_usdc_contract :
    strLower ServerV2.BASE_USDC_CONTRACT = ServerV2.BASE_USDC_CONTRACT := by decide

/-- The Transfer topic constant is already lowercase. -/
theorem strLower_transfer_topic :
    strLower ServerV2.TRANSFER_TOPIC = ServerV2.TRANSFER_TOPIC := by decide

/-- The USDC contract of the service is already lowercase. -/
theorem strLower_usdc_service :
    strLower VerifyBase.USDC_ADDRESS = VerifyBase.USDC_ADDRESS := by decide

/-- Decoding the last 40 characters of the example to-topic yields the
configured receiver. -/
theorem strLower_topic40 :
    strLower ("0x" ++ sliceLast40 usdcReceiverTopic) = ServerV2.BASE_USDC_RECEIVER := by decide

/-- Decoding the characters from index 26 of the example to-topic yields the
configured receiver. -/
theorem strLower_topic26 :
    strLower ("0x" ++ substringFrom26 usdcReceiverTopic) = ServerV2.BASE_USDC_RECEIVER := by decide

/-- The price string of 15 minutes converts to 100000 minor units. -/
theorem usdcToUnits_010 : ServerV2.usdcToUnits "0.10" = some 100000 := by decide

theorem bigIntHex_ea60 : jsBigIntHex "0xea60" = some 60000 := by decide

theorem bigIntHex_c350 : jsBigIntHex "0xc350" = some 50000 := by decide

theorem bigIntHex_30d40 : jsBigIntHex "0x30d40" = some 200000 := by decide

theorem parseIntHex_ea60 : jsParseIntHex16 "0xea60" = some 60000 := by decide

theorem parseIntHex_30d40 : jsParseIntHex16 "0x30d40" = some 200000 := by decide

/-- parseFloat reads the 15-minute price string as exactly one tenth. -/
theorem parseFloat_010 : jsParseFloatDec "0.10" = some (1/10) := by
have hs : splitDot "0.10" = ["0", "10"] := by decide
have h0 : decListVal "0".data = 0 := by decide
have h10 : decListVal "10".data = 10 := by decide
have hlen : "10".data.length = 2 := by decide
have hdig : (("0".data ++ "10".data).all Char.isDigit) = true := by decide
have hne : ("0".data.isEmpty && "10".data.isEmpty) = false := by decide
simp only [jsParseFloatDec, hs, hdig, hne, h0, h10, hlen]
norm_num

/-- C7 counterexample: verifyBasePayment accepts a transaction whose receipt
reports the failed on-chain status 0x0, as long as its first log is a large
enough transfer: the claim that a non-success status always yields
verified=false fails on this verification path, which never reads
receipt.status. -/
theorem c7_failed_status_accepted_counterexample :
    receiptFailedStatus.status = "0x0" ∧
    VerifyBase.verifyBasePayment ServerV2.BASE_USDC_RECEIVER
      (.ok (some receiptFailedStatus)) "0.10" = true := by
refine ⟨rfl, ?_⟩
norm_num [VerifyBase.verifyBasePayment, receiptFailedStatus, usdcTransferLog,
  strLower_usdc_service, strLower_topic26, parseIntHex_30d40, parseFloat_010]

/-- C7 amended: the unlock-confirm handler rejects every receipt whose
status differs from 0x1 (whatever its logs) and answers not-found on a
missing receipt without touching device state, and the Solana transaction
check rejects a missing transaction and any transaction without successful
meta; only verifyBasePayment ignores the on-chain status (see the
counterexample). -/
theorem c7_onchain_failure_rejected :
    (∀ (m : ServerV2.DevMap) (nowMs : ℚ) (req : ServerV2.ConfirmReq) (receipt : EvmReceipt),
      wfConfirmReq req → receipt.status ≠ "0x1" →
      (ServerV2.unlockConfirm true m nowMs req (.ok (some receipt))).1.status = 400 ∧
      (ServerV2.unlockConfirm true m nowMs req (.ok (some receipt))).1.ok = false ∧
      (ServerV2.unlockConfirm true m nowMs req (.ok (some receipt))).2 = m) ∧
    (∀ (m : ServerV2.DevMap) (nowMs : ℚ) (req : ServerV2.ConfirmReq),
      wfConfirmReq req →
      (ServerV2.unlockConfirm true m nowMs req (.ok none)).1 =
        { status := 400, error := "Transaction not found on Base RPC" } ∧
      (ServerV2.unlockConfirm true m nowMs req (.ok none)).2 = m) ∧
    (∀ r mint amt, X402.verifySolanaTsePaymentByTx (.ok none) r mint amt =
      { verified := false, message := "Transaction not found" }) ∧
    (∀ (tx : X402.SolTx) (r mint : String) (amt : ℕ),
      tx.meta.map X402.SolMeta.err ≠ some false →
      (X402.verifySolanaTsePaymentByTx (.ok (some tx)) r mint amt).verified = false) := by
refine ⟨?_, ?_, ?_, ?_⟩
· intro m nowMs req receipt hwf hst
  obtain ⟨h1, h2, h3, h4⟩ := hwf
  refine ⟨?_, ?_, ?_⟩ <;> simp [ServerV2.unlockConfirm, h1, h2, h3, h4, hst]
· intro m nowMs req hwf
  obtain ⟨h1, h2, h3, h4⟩ := hwf
  refine ⟨?_, ?_⟩ <;> simp [ServerV2.unlockConfirm, h1, h2, h3, h4]
· intro r mint amt
  rfl
· intro tx r mint amt hm
  match htx : tx.meta with
  | none => simp [X402.verifySolanaTsePaymentByTx, htx]
  | some meta =>
    rw [htx] at hm
    match herr : meta.err with
    | true => simp [X402.verifySolanaTsePaymentByTx, htx, herr]
    | false => simp [herr] at hm

/-- C7 witness: the failed-status receipt is rejected by unlock-confirm with
400 and the device table untouched, and a missing Solana transaction is a
not-found verification failure. -/
theorem c7_onchain_failure_rejected_witness :
    (ServerV2.unlockConfirm true ServerV2.initialDevices 0 confirmReq15
      (.ok (some receiptFailedStatus))).1.status = 400 ∧
    (ServerV2.unlockConfirm true ServerV2.initialDevices 0 confirmReq15
      (.ok (some receiptFailedStatus))).2 = ServerV2.initialDevices ∧
    X402.verifySolanaTsePaymentByTx (.ok none) X402.TSE_RECEIVER_WALLET X402.TSE_MINT 1000 =
      { verified := false, message := "Transaction not found" } := by
have h := c7_onchain_failure_rejected.1 ServerV2.initialDevices 0 confirmReq15
  receiptFailedStatus (by refine ⟨by decide, by decide, by decide, by decide⟩) (by decide)
exact ⟨h.1, h.2.2,
  c7_onchain_failure_rejected.2.2.1 X402.TSE_RECEIVER_WALLET X402.TSE_MINT 1000⟩

/-- C4 counterexample: a rejected RPC promise (network error or timeout)
makes the unlock-confirm request answer HTTP 500, a 5xx, not a 402
verification failure: the claim that a chain RPC error never produces a
5xx fails on this handler. -/
theorem c4_rpc_error_500_counterexample :
    (ServerV2.unlockConfirm true ServerV2.initialDevices 0 confirmReq15 (.error ())).1.status
      = 500 ∧
    (ServerV2.unlockConfirm true ServerV2.initialDevices 0 confirmReq15 (.error ())).1.ok
      = false := by
decide

/-- C4 amended: every verification function fails closed: an RPC error or a
malformed or missing response yields verified=false and never verified=true
in verifyBasePayment, verifySolanaTsePaymentByTx, and the balance checkers
verifyBaseUSDCPayment (balanceOf rejected) and verifySolanaTokenPayment
(either awaited call rejected, or a response with a null or unparsed account
value); but the unlock-confirm handler maps a rejected RPC promise to an
HTTP 500 response (leaving the device table untouched and granting nothing)
instead of a non-5xx verification failure. -/
theorem c4_fail_closed :
    (∀ recv amt, VerifyBase.verifyBasePayment recv (.error ()) amt = false) ∧
    (∀ recv amt, VerifyBase.verifyBasePayment recv (.ok none) amt = false) ∧
    (∀ recv amt (receipt : EvmReceipt), receipt.toAddress = none →
      VerifyBase.verifyBasePayment recv (.ok (some receipt)) amt = false) ∧
    (∀ r mint amt, (X402.verifySolanaTsePaymentByTx (.error ()) r mint amt).verified = false) ∧
    (∀ (addr : String) (amt : ℕ),
      (X402.verifyBaseUSDCPayment (.ok addr) (.error ()) amt).verified = false) ∧
    (∀ (info : Except Unit X402.ParsedAccountInfo) (amt : ℕ),
      (X402.verifySolanaTokenPayment (.ok ()) (.error ()) info amt).verified = false) ∧
    (∀ (accounts : List Unit) (amt : ℕ),
      (X402.verifySolanaTokenPayment (.ok ()) (.ok accounts) (.error ()) amt).verified
        = false) ∧
    (∀ (accounts : List Unit) (info : X402.ParsedAccountInfo) (amt : ℕ),
      info.value = none ∨ info.value = some none →
      (X402.verifySolanaTokenPayment (.ok ()) (.ok accounts) (.ok info) amt).verified
        = false) ∧
    (∀ (m : ServerV2.DevMap) (nowMs : ℚ) (req : ServerV2.ConfirmReq),
      wfConfirmReq req →
      (ServerV2.unlockConfirm true m nowMs req (.error ())).1.status = 500 ∧
      (ServerV2.unlockConfirm true m nowMs req (.error ())).1.ok = false ∧
      (ServerV2.unlockConfirm true m nowMs req (.error ())).2 = m) := by
refine ⟨fun recv amt => rfl, fun recv amt => rfl, ?_, fun r mint amt => rfl,
  fun addr amt => rfl, fun info amt => rfl, ?_, ?_, ?_⟩
· intro recv amt receipt hto
  simp [VerifyBase.verifyBasePayment, hto]
· intro accounts amt
  unfold X402.verifySolanaTokenPayment
  by_cases h : accounts.length = 0 <;> simp [h]
· intro accounts info amt hval
  unfold X402.verifySolanaTokenPayment
  rcases hval with hval | hval <;>
    by_cases h : accounts.length = 0 <;> simp [h, hval]
· intro m nowMs req hwf
  obtain ⟨h1, h2, h3, h4⟩ := hwf
  refine ⟨?_, ?_, ?_⟩ <;> simp [ServerV2.unlockConfirm, h1, h2, h3, h4]

/-- C4 witness: the fail-closed verifiers of every strategy (transaction
checks and balance checks) and the 500 of unlock-confirm at concrete
inputs. -/
theorem c4_fail_closed_witness :
    VerifyBase.verifyBasePayment ServerV2.BASE_USDC_RECEIVER (.error ()) "0.10" = false ∧
    (X402.verifySolanaTsePaymentByTx (.error ()) X402.TSE_RECEIVER_WALLET X402.TSE_MINT
      1000).verified = false ∧
    (X402.verifyBaseUSDCPayment (.ok "0x8469a3A136AE586356bAA89C61191D8E2d84B92f")
      (.error ()) 500000).verified = false ∧
    (X402.verifySolanaTokenPayment (.ok ()) (.ok [()]) (.error ()) 1000).verified = false ∧
    (X402.verifySolanaTokenPayment (.ok ()) (.ok [()]) (.ok { value := none })
      1000).verified = false ∧
    (ServerV2.unlockConfirm true ServerV2.initialDevices 5 confirmReq15 (.error ())).1.status
      = 500 := by
refine ⟨c4_fail_closed.1 ServerV2.BASE_USDC_RECEIVER "0.10",
  c4_fail_closed.2.2.2.1 X402.TSE_RECEIVER_WALLET X402.TSE_MINT 1000,
  c4_fail_closed.2.2.2.2.1 "0x8469a3A136AE586356bAA89C61191D8E2d84B92f" 500000,
  c4_fail_closed.2.2.2.2.2.2.1 [()] 1000,
  c4_fail_closed.2.2.2.2.2.2.2.1 [()] { value := none } 1000 (Or.inl rfl),
  (c4_fail_closed.2.2.2.2.2.2.2.2 ServerV2.initialDevices 5 confirmReq15
    (by refine ⟨by decide, by decide, by decide, by decide⟩)).1⟩

/-- Folding k zero digits multiplies the running decimal value by 10^k. -/
theorem foldl_dec_zeros (k : ℕ) :
    ∀ (a : ℕ), List.foldl (fun a c => a * 10 + (c.toNat - '0'.toNat)) a
      (List.replicate k '0') = a * 10 ^ k := by
induction k with
| zero => intro a; simp
| succ n ih =>
  intro a
  rw [List.replicate_succ, List.foldl_cons, ih]
  have h0 : '0'.toNat - '0'.toNat = 0 := Nat.sub_self _
  rw [h0]
  ring

/-- Appending k zero digits multiplies the decimal value by 10^k. -/
theorem decListVal_append_zeros (l : List Char) (k : ℕ) :
    decListVal (l ++ List.replicate k '0') = decListVal l * 10 ^ k := by
unfold decListVal
rw [List.foldl_append]
exact foldl_dec_zeros k _

/-- parseFloat reads the demo price string as exactly one hundredth. -/
theorem parseFloat_001 : jsParseFloatDec "0.01" = some (1/100) := by
have hs : splitDot "0.01" = ["0", "01"] := by decide
have h0 : decListVal "0".data = 0 := by decide
have h01 : decListVal "01".data = 1 := by decide
have hlen : "01".data.length = 2 := by decide
have hdig : (("0".data ++ "01".data).all Char.isDigit) = true := by decide
have hne : ("0".data.isEmpty && "01".data.isEmpty) = false := by decide
simp only [jsParseFloatDec, hs, hdig, hne, h0, h01, hlen]
norm_num

/-- parseFloat reads the 30-minute price string as exactly one fifth. -/
theorem parseFloat_020 : jsParseFloatDec "0.20" = some (1/5) := by
have hs : splitDot "0.20" = ["0", "20"] := by decide
have h0 : decListVal "0".data = 0 := by decide
have h20 : decListVal "20".data = 20 := by decide
have hlen : "20".data.length = 2 := by decide
have hdig : (("0".data ++ "20".data).all Char.isDigit) = true := by decide
have hne : ("0".data.isEmpty && "20".data.isEmpty) = false := by decide
simp only [jsParseFloatDec, hs, hdig, hne, h0, h20, hlen]
norm_num

/-- parseFloat reads the 60-minute price string as exactly three tenths. -/
theorem parseFloat_030 : jsParseFloatDec "0.30" = some (3/10) := by
have hs : splitDot "0.30" = ["0", "30"] := by decide
have h0 : decListVal "0".data = 0 := by decide
have h30 : decListVal "30".data = 30 := by decide
have hlen : "30".data.length = 2 := by decide
have hdig : (("0".data ++ "30".data).all Char.isDigit) = true := by decide
have hne : ("0".data.isEmpty && "30".data.isEmpty) = false := by decide
simp only [jsParseFloatDec, hs, hdig, hne, h0, h30, hlen]
norm_num

/-- parseFloat reads the long-duration price string as exactly one. -/
theorem parseFloat_100 : jsParseFloatDec "1.00" = some 1 := by
have hs : splitDot "1.00" = ["1", "00"] := by decide
have h1 : decListVal "1".data = 1 := by decide
have h00 : decListVal "00".data = 0 := by decide
have hlen : "00".data.length = 2 := by decide
have hdig : (("1".data ++ "00".data).all Char.isDigit) = true := by decide
have hne : ("1".data.isEmpty && "00".data.isEmpty) = false := by decide
simp only [jsParseFloatDec, hs, hdig, hne, h1, h00, hlen]
norm_num

/-- The keep predicate holds on the transfer-log template, whatever data it
carries. -/
theorem specKeep_usdcTransferLog (d : String) :
    specKeep ServerV2.BASE_USDC_CONTRACT ServerV2.BASE_USDC_RECEIVER
      (usdcTransferLog d) = true := by
simp [specKeep, usdcTransferLog, strLower_usdc_contract, strLower_transfer_topic,
  strLower_topic40]

/-- Under well-formed data the unlock-confirm scan step adds exactly the
amount of a kept log and leaves the sum unchanged on a dropped log: the
filter of the implementation coincides with the keep predicate written from
the spec. -/
theorem scanLog_step_eq (recv : String) (acc : ℕ) (log : EvmLog) (h : logWf log) :
    ServerV2.scanLog recv (some acc) log =
      some (acc + (if specKeep ServerV2.BASE_USDC_CONTRACT recv log = true
                   then (jsBigIntHex log.data).getD 0 else 0)) := by
obtain ⟨hsw, hsome⟩ := h
obtain ⟨v, hv⟩ := Option.isSome_iff_exists.mp hsome
have htruthy : jsTruthyStr (some log.data) = true := by
  unfold startsWith0x at hsw
  unfold jsTruthyStr
  rcases hdata : log.data.data with _ | ⟨c, rest⟩
  · rw [hdata] at hsw; simp at hsw
  · simp [hdata]
by_cases h1 : strLower log.address = ServerV2.BASE_USDC_CONTRACT
· have haddr : jsTruthyStr (some log.address) = true := by
    unfold jsTruthyStr
    rcases hdata : log.address.data with _ | ⟨c, rest⟩
    · exfalso
      have hmk : strLower log.address = ("" : String) := by
        simp [strLower, hdata]
      rw [hmk] at h1
      exact absurd h1 (by decide)
    · simp [hdata]
  by_cases h2 : strLower ((log.topics.head?).getD "") = ServerV2.TRANSFER_TOPIC
  · have hlen0 : ¬ log.topics.length = 0 := by
      rcases htop : log.topics with _ | ⟨t, ts⟩
      · exfalso
        rw [htop] at h2
        simp only [List.head?_nil, Option.getD_none] at h2
        exact absurd h2 (by decide)
      · simp [htop]
    by_cases h3 : 3 ≤ log.topics.length
    · have h3n : ¬ log.topics.length < 3 := by omega
      by_cases h4 : strLower ("0x" ++ sliceLast40 ((log.topics[2]?).getD "")) = recv
      · have hk : specKeep ServerV2.BASE_USDC_CONTRACT recv log = true := by
          simp [specKeep, h1, h2, h3, h4]
        rw [hk]
        simp [ServerV2.scanLog, haddr, h1, hlen0, h2, h3n, h4, htruthy, hsw, hv]
      · have hk : specKeep ServerV2.BASE_USDC_CONTRACT recv log = false := by
          simp [specKeep, h4]
        rw [hk]
        simp [ServerV2.scanLog, haddr, h1, hlen0, h2, h3n, h4]
    · have h3n : log.topics.length < 3 := by omega
      have hk : specKeep ServerV2.BASE_USDC_CONTRACT recv log = false := by
        simp [specKeep, h3]
      rw [hk]
      simp [ServerV2.scanLog, haddr, h1, hlen0, h2, h3n]
  · have hk : specKeep ServerV2.BASE_USDC_CONTRACT recv log = false := by
      simp [specKeep, h2]
    rw [hk]
    simp [ServerV2.scanLog, haddr, h1, h2]
· have hk : specKeep ServerV2.BASE_USDC_CONTRACT recv log = false := by
    simp [specKeep, h1]
  rw [hk]
  simp [ServerV2.scanLog, h1]

/-- The whole unlock-confirm log scan computes, for well-formed data, exactly
the spec-side sum over kept logs. -/
theorem foldl_scanLog_eq (recv : String) (logs : List EvmLog)
    (h : ∀ log ∈ logs, logWf log) :
    ∀ (acc : ℕ), logs.foldl (ServerV2.scanLog recv) (some acc) =
      some (acc + ((logs.filter (specKeep ServerV2.BASE_USDC_CONTRACT recv)).map
        (fun log => (jsBigIntHex log.data).getD 0)).sum) := by
induction logs with
| nil => intro acc; simp
| cons l ls ih =>
  intro acc
  have hl := h l (List.mem_cons_self l ls)
  have hls : ∀ log ∈ ls, logWf log := fun log hm => h log (List.mem_cons_of_mem _ hm)
  rw [List.foldl_cons, scanLog_step_eq recv acc l hl, ih hls]
  by_cases hk : specKeep ServerV2.BASE_USDC_CONTRACT recv l = true
  · simp [hk, List.filter_cons, Nat.add_assoc]
  · simp [hk, List.filter_cons]

/-- C5 amended: on the unlock-confirm path, amounts are exact integers in
minor units: every price string the pricing table can produce converts by
usdcToUnits to exactly its decimal value scaled by 10^6 (BigInt arithmetic,
fractional digits padded or truncated to the 6 declared decimals), and a
receipt with one qualifying transfer of v minor units meets the 15-minute
requirement of 100000 minor units exactly when 100000 ≤ v, so 99999 minor
units (0.099999 USDC) never passes the 0.10 USDC requirement there. The
verifyBasePayment path is not integer-exact (see the counterexample). -/
theorem c5_exact_integer_amounts :
    (∀ minutes : ℚ, ∃ (u : ℕ) (q : ℚ),
      ServerV2.usdcToUnits (ServerV2.calculatePriceUSDC minutes) = some u ∧
      jsParseFloatDec (ServerV2.calculatePriceUSDC minutes) = some q ∧
      (u : ℚ) = q * 1000000) ∧
    (ServerV2.usdcToUnits "0.1" = some 100000 ∧
     ServerV2.usdcToUnits "0.1234567" = some 123456) ∧
    (∀ (v : ℕ) (dataHex : String) (m : ServerV2.DevMap) (nowMs : ℚ),
      jsBigIntHex dataHex = some v → startsWith0x dataHex = true →
      ((ServerV2.unlockConfirm true m nowMs confirmReq15
        (.ok (some (oneLogReceipt dataHex)))).1.status = 200 ↔ 100000 ≤ v)) := by
refine ⟨?_, ⟨by decide, by decide⟩, ?_⟩
· intro minutes
  unfold ServerV2.calculatePriceUSDC
  split_ifs
  · exact ⟨10000, 1/100, by decide, parseFloat_001, by norm_num⟩
  · exact ⟨100000, 1/10, by decide, parseFloat_010, by norm_num⟩
  · exact ⟨200000, 1/5, by decide, parseFloat_020, by norm_num⟩
  · exact ⟨300000, 3/10, by decide, parseFloat_030, by norm_num⟩
  · exact ⟨1000000, 1, by decide, parseFloat_100, by norm_num⟩
· intro v dataHex m nowMs hbig hsw
  have ht1 : jsTruthyStr (some "bike-1") = true := by decide
  have ht2 : jsTruthyStr (some "0xfeed01") = true := by decide
  have hm0 : ((some (15:ℚ)) = none) = False := by simp
  have hm1 : (15:ℚ) = 0 ↔ False := by norm_num
  have hprice : ServerV2.calculatePriceUSDC 15 = "0.10" := by
    norm_num [ServerV2.calculatePriceUSDC]
  have hwf : ∀ log ∈ [usdcTransferLog dataHex], logWf log := by
    intro log hm
    rw [List.mem_singleton] at hm
    subst hm
    refine ⟨hsw, ?_⟩
    show (jsBigIntHex dataHex).isSome = true
    rw [hbig]
    rfl
  have hfold := foldl_scanLog_eq ServerV2.BASE_USDC_RECEIVER [usdcTransferLog dataHex] hwf 0
  rw [List.filter_cons] at hfold
  simp only [specKeep_usdcTransferLog, if_true, List.filter_nil, List.map_cons,
    List.map_nil, List.sum_cons, List.sum_nil] at hfold
  have hdat : (usdcTransferLog dataHex).data = dataHex := rfl
  rw [hdat, hbig] at hfold
  simp only [Option.getD_some, Nat.zero_add, Nat.add_zero] at hfold
  by_cases hvv : v < 100000
  · have hno : ¬ (100000 ≤ v) := by omega
    norm_num [ServerV2.unlockConfirm, confirmReq15, oneLogReceipt, ht1, ht2, hm0, hm1,
      hprice, usdcToUnits_010, hfold, hvv, hno]
  · have hyes : 100000 ≤ v := by omega
    norm_num [ServerV2.unlockConfirm, confirmReq15, oneLogReceipt, ht1, ht2, hm0, hm1,
      hprice, usdcToUnits_010, hfold, hvv, hyes]

/-- C5 witness: exactly 100000 minor units (0x186a0) meets the 0.10 USDC
requirement and 99999 minor units (0x1869f, i.e. 0.099999 USDC) does not. -/
theorem c5_exact_integer_amounts_witness :
    ((ServerV2.unlockConfirm true ServerV2.initialDevices 0 confirmReq15
        (.ok (some (oneLogReceipt "0x186a0")))).1.status = 200 ↔ 100000 ≤ 100000) ∧
    ((ServerV2.unlockConfirm true ServerV2.initialDevices 0 confirmReq15
        (.ok (some (oneLogReceipt "0x1869f")))).1.status = 200 ↔ 100000 ≤ 99999) := by
constructor
· exact c5_exact_integer_amounts.2.2 100000 "0x186a0" ServerV2.initialDevices 0
    (by decide) (by decide)
· exact c5_exact_integer_amounts.2.2 99999 "0x1869f" ServerV2.initialDevices 0
    (by decide) (by decide)

/-- C5 counterexample: on the verifyBasePayment path a receipt whose two
qualifying transfers to the receiver sum to 110000 minor units does not
satisfy the 100000-minor-unit (0.10 USDC) requirement: the function reads
only logs[0] (50000 units) and compares the scaled decimal 0.05 against
parseFloat, so the claimed summed-integer criterion fails on this path. -/
theorem c5_sum_ignored_counterexample :
    specTransferSum ServerV2.BASE_USDC_CONTRACT ServerV2.BASE_USDC_RECEIVER receipt5060
      = 110000 ∧
    VerifyBase.verifyBasePayment ServerV2.BASE_USDC_RECEIVER (.ok (some receipt5060)) "0.10"
      = false := by
constructor
· decide
· have hpi : jsParseIntHex16 "0xc350" = some 50000 := by decide
  norm_num [VerifyBase.verifyBasePayment, receipt5060, usdcTransferLog,
    strLower_usdc_service, strLower_topic26, hpi, parseFloat_010]

/-- C6 amended: the unlock-confirm log scan computes exactly the spec-side
sum: it keeps precisely the logs whose address is the USDC contract, whose
first topic is the Transfer signature and whose decoded right-aligned
recipient is the receiver, and sums their amounts; the end-to-end scenario
with qualifying transfers of 60000 and 50000 minor units against the
100000-minor-unit requirement unlocks with 200. The verifyBasePayment
variant does not implement this scan (see the counterexample). -/
theorem c6_sums_qualifying_logs :
    (∀ (recv : String) (receipt : EvmReceipt),
      (∀ log ∈ receipt.logs.getD [], logWf log) →
      (receipt.logs.getD []).foldl (ServerV2.scanLog recv) (some 0) =
        some (specTransferSum ServerV2.BASE_USDC_CONTRACT recv receipt)) ∧
    (∀ (m : ServerV2.DevMap) (nowMs : ℚ),
      specTransferSum ServerV2.BASE_USDC_CONTRACT ServerV2.BASE_USDC_RECEIVER receipt6050
        = 110000 ∧
      (ServerV2.unlockConfirm true m nowMs confirmReq15 (.ok (some receipt6050))).1.status
        = 200 ∧
      (ServerV2.unlockConfirm true m nowMs confirmReq15 (.ok (some receipt6050))).1.ok
        = true) := by
constructor
· intro recv receipt hwf
  rw [foldl_scanLog_eq recv _ hwf 0]
  simp [specTransferSum]
· intro m nowMs
  have ht1 : jsTruthyStr (some "bike-1") = true := by decide
  have ht2 : jsTruthyStr (some "0xfeed01") = true := by decide
  have hm0 : ((some (15:ℚ)) = none) = False := by simp
  have hm1 : (15:ℚ) = 0 ↔ False := by norm_num
  have hprice : ServerV2.calculatePriceUSDC 15 = "0.10" := by
    norm_num [ServerV2.calculatePriceUSDC]
  have hfold : List.foldl (ServerV2.scanLog ServerV2.BASE_USDC_RECEIVER) (some 0)
      [usdcTransferLog "0xea60", usdcTransferLog "0xc350"] = some 110000 := by decide
  refine ⟨by decide, ?_, ?_⟩ <;>
    norm_num [ServerV2.unlockConfirm, confirmReq15, receipt6050, ht1, ht2, hm0, hm1,
      hprice, usdcToUnits_010, hfold]

/-- C6 witness: the scan equals the spec sum on the scenario receipt, and
the 60000 + 50000 scenario unlocks with 200. -/
theorem c6_sums_qualifying_logs_witness :
    (receipt6050.logs.getD []).foldl (ServerV2.scanLog ServerV2.BASE_USDC_RECEIVER) (some 0)
      = some (specTransferSum ServerV2.BASE_USDC_CONTRACT ServerV2.BASE_USDC_RECEIVER
          receipt6050) ∧
    (ServerV2.unlockConfirm true ServerV2.initialDevices 0 confirmReq15
      (.ok (some receipt6050))).1.status = 200 := by
exact ⟨c6_sums_qualifying_logs.1 ServerV2.BASE_USDC_RECEIVER receipt6050 (by decide),
  (c6_sums_qualifying_logs.2 ServerV2.initialDevices 0).2.1⟩

/-- C6 counterexample: on the verifyBasePayment path the scenario receipt
with qualifying transfers of 60000 and 50000 minor units (summing to 110000,
which meets the 100000 requirement) is rejected: only logs[0] is read, so
the claimed for-every-receipt scan-and-sum behaviour fails on this path. -/
theorem c6_scenario_rejected_counterexample :
    specTransferSum ServerV2.BASE_USDC_CONTRACT ServerV2.BASE_USDC_RECEIVER receipt6050
      = 110000 ∧
    VerifyBase.verifyBasePayment ServerV2.BASE_USDC_RECEIVER (.ok (some receipt6050)) "0.10"
      = false := by
constructor
· decide
· norm_num [VerifyBase.verifyBasePayment, receipt6050, usdcTransferLog,
    strLower_usdc_service, strLower_topic26, parseIntHex_ea60, parseFloat_010]

/-- C1: there is no UsedProofs set. The same transaction hash tx1 presented
against two different open challenges for the same device issues two
credentials: the second attempt answers 200 verified with a fresh access
token instead of failing with ProofReused; and the unlock-confirm handler
likewise accepts the same transaction hash a second time and unlocks again. -/
theorem c1_tx_replay_issues_second_credential :
    (X402.x402Verify tseWorld challsTwo 0 verifyReqC1).1.verified = true ∧
    (X402.x402Verify tseWorld
      (X402.x402Verify tseWorld challsTwo 0 verifyReqC1).2 0 verifyReqC2).1.verified = true ∧
    ((X402.x402Verify tseWorld
      (X402.x402Verify tseWorld challsTwo 0 verifyReqC1).2 0 verifyReqC2).1.accessToken).isSome
      = true ∧
    (ServerV2.unlockConfirm true
      (ServerV2.unlockConfirm true ServerV2.initialDevices 0 confirmReq15
        (.ok (some receipt6050))).2 5 confirmReq15 (.ok (some receipt6050))).1.status = 200 := by
have hgen : ∀ m : ServerV2.DevMap,
    (ServerV2.unlockConfirm true m 5 confirmReq15 (.ok (some receipt6050))).1.status = 200 := by
  intro m
  have ht1 : jsTruthyStr (some "bike-1") = true := by decide
  have ht2 : jsTruthyStr (some "0xfeed01") = true := by decide
  have hm0 : ((some (15:ℚ)) = none) = False := by simp
  have hm1 : (15:ℚ) = 0 ↔ False := by norm_num
  have hprice : ServerV2.calculatePriceUSDC 15 = "0.10" := by
    norm_num [ServerV2.calculatePriceUSDC]
  have hfold : List.foldl (ServerV2.scanLog ServerV2.BASE_USDC_RECEIVER) (some 0)
      [usdcTransferLog "0xea60", usdcTransferLog "0xc350"] = some 110000 := by decide
  norm_num [ServerV2.unlockConfirm, confirmReq15, receipt6050, ht1, ht2, hm0, hm1,
    hprice, usdcToUnits_010, hfold]
exact ⟨by decide, by decide, by decide, hgen _⟩

/-- Early responses of the x402 verify handler never report verified. -/
theorem x402VerifyPhase1_early_not_verified (challs : X402.ChallengeMap) (nowMs : ℤ)
    (req : X402.VerifyReq) (resp : X402.VerifyResp)
    (h : X402.x402VerifyPhase1 challs nowMs req = .early resp) :
    resp.verified = false := by
unfold X402.x402VerifyPhase1 at h
repeat' split at h
all_goals first
| (injection h with h2; rw [← h2])
| injection h

/-- Inversion of the proceed outcome of the x402 verify handler: the record
was read from the table under the request challenge id, is unexpired and
not yet paid. -/
theorem x402VerifyPhase1_proceed_inv (challs : X402.ChallengeMap) (nowMs : ℤ)
    (req : X402.VerifyReq) (cid : String) (record : X402.X402Record)
    (h : X402.x402VerifyPhase1 challs nowMs req = .proceed cid record) :
    cid = req.challengeId.getD "" ∧
    challs.lookup (req.challengeId.getD "") = some record ∧
    record.paid = false ∧ ¬ nowMs > record.expiresAt := by
unfold X402.x402VerifyPhase1 at h
repeat' split at h
all_goals cases h
rename_i hdid hwid hexp hpaid
exact ⟨rfl, by assumption, by simpa using hpaid, hexp⟩

/-- C8 amended: without interleaving, a challenge is consumed at most once:
a verify that issues a credential leaves the record paid; any later
well-formed attempt on a paid challenge fails with 409 (or 410 once
expired) without touching the table and never reports verified; an expired
challenge always answers 410; so a consumed or expired challenge never
produces a credential in sequential execution. Because the paid check and
the paid update sit on opposite sides of the awaited chain call, two
interleaved requests can nevertheless both succeed (see the
counterexample). -/
theorem c8_challenge_consumed_once_sequential :
    (∀ (world : String → Except Unit (Option X402.SolTx)) (challs : X402.ChallengeMap)
       (nowMs : ℤ) (req : X402.VerifyReq),
      (X402.x402Verify world challs nowMs req).1.verified = true →
      ((X402.x402Verify world challs nowMs req).2.lookup (req.challengeId.getD "")).map
        X402.X402Record.paid = some true) ∧
    (∀ (world : String → Except Unit (Option X402.SolTx)) (challs : X402.ChallengeMap)
       (nowMs : ℤ) (req : X402.VerifyReq) (record : X402.X402Record),
      wfVerifyReq challs req record → record.paid = true →
      ((X402.x402Verify world challs nowMs req).1.status = 409 ∨
       (X402.x402Verify world challs nowMs req).1.status = 410) ∧
      (X402.x402Verify world challs nowMs req).1.verified = false ∧
      (X402.x402Verify world challs nowMs req).2 = challs) ∧
    (∀ (world : String → Except Unit (Option X402.SolTx)) (challs : X402.ChallengeMap)
       (nowMs : ℤ) (req : X402.VerifyReq) (record : X402.X402Record),
      wfVerifyReq challs req record → nowMs > record.expiresAt →
      (X402.x402Verify world challs nowMs req).1 = { status := 410 } ∧
      (X402.x402Verify world challs nowMs req).2 = challs) := by
refine ⟨?_, ?_, ?_⟩
· intro world challs nowMs req hv
  unfold X402.x402Verify at hv ⊢
  generalize hp : X402.x402VerifyPhase1 challs nowMs req = out at hv ⊢
  cases out with
  | early resp =>
    have hne := x402VerifyPhase1_early_not_verified challs nowMs req resp hp
    simp [hne] at hv
  | proceed cid record =>
    simp only [] at hv ⊢
    obtain ⟨hcid, hlook, hpaid, hexp⟩ := x402VerifyPhase1_proceed_inv challs nowMs req
      cid record hp
    subst hcid
    by_cases hpc : (X402.verifySolanaTsePaymentByTx (world (req.txHash.getD ""))
        record.receiver X402.TSE_MINT record.amount).verified = true
    · simp only [X402.x402VerifyPhase2, hpc, Bool.not_true, Bool.false_eq_true, if_false]
      simp [lookup_assocSet_self]
    · simp only [Bool.not_eq_true] at hpc
      simp [X402.x402VerifyPhase2, hpc] at hv
· intro world challs nowMs req record hwf hpaid
  obtain ⟨hdev, hw, hc, ht, hlook, hdid, hwid⟩ := hwf
  obtain ⟨d, hd⟩ := Option.isSome_iff_exists.mp hdev
  unfold X402.x402Verify X402.x402VerifyPhase1
  by_cases hex : nowMs > record.expiresAt
  · simp [hd, hw, hc, ht, hlook, hdid, hwid, hpaid, hex]
  · simp [hd, hw, hc, ht, hlook, hdid, hwid, hpaid, hex]
· intro world challs nowMs req record hwf hex
  obtain ⟨hdev, hw, hc, ht, hlook, hdid, hwid⟩ := hwf
  obtain ⟨d, hd⟩ := Option.isSome_iff_exists.mp hdev
  unfold X402.x402Verify X402.x402VerifyPhase1
  simp [hd, hw, hc, ht, hlook, hdid, hwid, hex]

/-- C8 witness: a verify on the already-consumed challenge gets 409 or 410
and no verification, leaving the table unchanged; a verify on the expired
challenge gets the bare 410 response. -/
theorem c8_challenge_consumed_once_sequential_witness :
    ((X402.x402Verify tseWorld challsPaidOne 0 verifyReqC1).1.status = 409 ∨
     (X402.x402Verify tseWorld challsPaidOne 0 verifyReqC1).1.status = 410) ∧
    (X402.x402Verify tseWorld challsPaidOne 0 verifyReqC1).1.verified = false ∧
    (X402.x402Verify tseWorld challsPaidOne 0 verifyReqC1).2 = challsPaidOne ∧
    (X402.x402Verify tseWorld challsOne 2000000000 verifyReqC1).1 = { status := 410 } := by
have h1 := c8_challenge_consumed_once_sequential.2.1 tseWorld challsPaidOne 0 verifyReqC1
  chalPaid ⟨by decide, by decide, by decide, by decide, by decide, by decide, by decide⟩
  (by decide)
have h2 := c8_challenge_consumed_once_sequential.2.2 tseWorld challsOne 2000000000
  verifyReqC1 chalC1 ⟨by decide, by decide, by decide, by decide, by decide, by decide,
  by decide⟩ (by decide)
exact ⟨h1.1, h1.2.1, h1.2.2, h2.1⟩

/-- C8 counterexample: consumption is not atomic with the verification
decision. The paid check (phase 1) and the paid update (phase 2) sit on
opposite sides of the awaited chain RPC, and phase 2 never re-reads the
flag; so when a second request for the same challenge runs its phase 1
while the first is awaiting the chain (both observe the unconsumed record
in the same table), both phase 2 executions issue a credential: consume
succeeds twice and the second attempt does not fail with 409 or 410. -/
theorem c8_concurrent_double_consume_counterexample :
    X402.x402VerifyPhase1 challsOne 0 verifyReqC1 = .proceed "c1" chalC1 ∧
    (X402.x402VerifyPhase2 challsOne 0 verifyReqC1 "c1" chalC1 pcC1).1.verified = true ∧
    (X402.x402VerifyPhase2
      (X402.x402VerifyPhase2 challsOne 0 verifyReqC1 "c1" chalC1 pcC1).2
      0 verifyReqC1 "c1" chalC1 pcC1).1.verified = true ∧
    ((X402.x402VerifyPhase2
      (X402.x402VerifyPhase2 challsOne 0 verifyReqC1 "c1" chalC1 pcC1).2
      0 verifyReqC1 "c1" chalC1 pcC1).1.accessToken).isSome = true := by
decide
